import Mathlib

/-!
Shallow embedding of the comprehensive-toolkit record-capability module.

The embedding translates the four capability mixins (accessible, ownable,
assignable, responsible), the custom access group entity, the group-creation
wizard and the audit-log models into pure Lean functions.  Odoo recordsets of
`res.users` are represented by lists of user ids (`Nat`); datetimes are `Nat`
timestamps; the acting principal (`self.env.user`) is passed explicitly as a
`User` value carrying its group capabilities; the user directory
(`browse(uid).exists()` on the user model) is an `Env` value listing the existing
user ids.  Each mutating method becomes a function from the record state to
`Option Err × State`: the first component is the raised exception (if any) and
the second one is the record state at the point where control left the method,
so an exception raised after a partial mutation would surface as a changed
state.  Audit-log writes are modelled as appends to per-domain entry lists
carried inside the record state.
-/

/-- Exceptions raised by the module: `accessError` is the odoo `AccessError`,
`validationError` is `ValidationError`, and `nameError` is a Python
`NameError` caused by referencing a name the module never imported. -/
inductive Err where
  | accessError
  | validationError
  | nameError
deriving DecidableEq, Repr

/-- The `access_level` selection of the accessible mixin. -/
inductive AccessLevel where
  | publicLevel
  | internal
  | restricted
  | privateLevel
deriving DecidableEq, Repr

/-- The `assignment_status` selection of the assignable mixin. -/
inductive AssignmentStatus where
  | unassigned
  | assigned
  | in_progress
  | completed
  | cancelled
deriving DecidableEq, Repr

/-- The `assignment_priority` selection of the assignable mixin. -/
inductive AssignPriority where
  | low
  | normal
  | high
  | urgent
deriving DecidableEq, Repr

/-- The `group_type` selection of `tk.accessible.group` and its wizard. -/
inductive GroupType where
  | general
  | project
  | department
  | temporary
  | external
  | custom
deriving DecidableEq, Repr

/-- The acting principal (`self.env.user`): its id, its system-group
memberships (`groups_id`) and its `has_group` capabilities for
`base.group_user` and `base.group_system`. -/
structure User where
  id : Nat
  groups_id : List Nat
  in_group_user : Bool
  in_group_system : Bool
deriving DecidableEq, Repr

/-- The user directory: ids for which `browse(uid).exists()` is true. -/
structure Env where
  users : List Nat
deriving DecidableEq, Repr

/-- A `tk.accessible.group` record (custom access group). -/
structure AccessibleGroup where
  id : Nat
  name : String
  active : Bool
  user_ids : List Nat
  manager_ids : List Nat
  created_by : Nat
deriving DecidableEq, Repr

/-- One audit-log row.  The four log kinds (`tk.access.log`,
`tk.ownership.log`, `tk.assignment.log`, `tk.responsibility.log`) share this
shape: a weak record reference (`model_name`/`res_id`), the action name, up to
two structural actor/group references (old/new or user/group), free-text
`reason` and `extra_info`, the acting user and a timestamp. -/
structure LogEntry where
  model_name : String
  res_id : Nat
  action : String
  old_ref : Option Nat
  new_ref : Option Nat
  reason : String
  extra_info : String
  user_id : Nat
  date : Nat
deriving DecidableEq, Repr

/-- State of one host record composing the four mixins, together with the
four audit-log tables restricted to this record.  `hasOwnable` and
`hasAccessible` model the hasattr probes for `owner_id` and for
`access_level`: a host entity may compose only some of the mixins, and
several methods probe for the fields of the other mixins. -/
structure TkRecord where
  id : Nat
  -- ownable mixin fields
  hasOwnable : Bool
  owner_id : Option Nat
  co_owner_ids : List Nat
  previous_owner_id : Option Nat
  ownership_date : Option Nat
  -- accessible mixin fields
  hasAccessible : Bool
  access_level : AccessLevel
  allowed_user_ids : List Nat
  allowed_group_ids : List Nat
  custom_access_groups : List AccessibleGroup
  access_start_date : Option Nat
  access_end_date : Option Nat
  -- assignable mixin fields
  assigned_user_ids : List Nat
  assigner_id : Option Nat
  assignment_date : Option Nat
  assignment_deadline : Option Nat
  assignment_status : AssignmentStatus
  assignment_priority : AssignPriority
  assignment_description : Option String
  -- responsible mixin fields
  responsible_user_ids : List Nat
  secondary_responsible_ids : List Nat
  responsibility_delegated_by : Option Nat
  responsibility_start_date : Option Nat
  responsibility_end_date : Option Nat
  responsibility_description : Option String
  -- audit logs
  access_logs : List LogEntry
  ownership_logs : List LogEntry
  assignment_logs : List LogEntry
  responsibility_logs : List LogEntry
deriving DecidableEq, Repr

/-- `_compute_is_access_expired`: `access_end_date and access_end_date < now`. -/
def is_access_expired (r : TkRecord) (now : Nat) : Bool :=
  match r.access_end_date with
  | some e => decide (e < now)
  | none => false

/-- The start-date guard of `_check_user_access`:
`access_start_date and access_start_date > now`. -/
def access_start_future (r : TkRecord) (now : Nat) : Bool :=
  match r.access_start_date with
  | some s => decide (now < s)
  | none => false

/-- `_check_user_access` of the accessible mixin: expiry guard, start-date
guard, admin, owner, co-owner, then the `access_level` dispatch. -/
def check_user_access (r : TkRecord) (u : User) (now : Nat) : Bool :=
  if is_access_expired r now then false
  else if access_start_future r now then false
  else if u.in_group_system then true
  else if r.hasOwnable && r.owner_id == some u.id then true
  else if r.hasOwnable && r.co_owner_ids.contains u.id then true
  else
    match r.access_level with
    | .publicLevel => true
    | .internal => u.in_group_user
    | .restricted =>
        if r.allowed_user_ids.contains u.id then true
        else if u.groups_id.any (fun g => r.allowed_group_ids.contains g) then true
        else r.custom_access_groups.any (fun g => g.active && g.user_ids.contains u.id)
    | .privateLevel =>
        if r.allowed_user_ids.contains u.id then true
        else r.custom_access_groups.any (fun g => g.active && g.user_ids.contains u.id)

/-- `_compute_can_grant_access`: admin, or owner (when the record has
ownership state), or member of the explicit allowed-user set. -/
def can_grant_access (r : TkRecord) (u : User) : Bool :=
  u.in_group_system
  || (r.hasOwnable && r.owner_id == some u.id)
  || r.allowed_user_ids.contains u.id

/-- `_compute_is_owned`: owner set or co-owner set non-empty. -/
def is_owned (r : TkRecord) : Bool :=
  r.owner_id.isSome || !r.co_owner_ids.isEmpty

/-- `_compute_can_assign` of the assignable mixin, translated clause by
clause: basic permission, current-assignee test, the ownership probe, the
assignment-local access evaluation (which does not reuse
`_check_user_access`), and the final disjunction. -/
def compute_can_assign (r : TkRecord) (u : User) : Bool :=
  let has_basic_permission := u.in_group_user || u.in_group_system
  let is_assigned := r.assigned_user_ids.contains u.id
  let has_ownership :=
    r.hasOwnable &&
      (r.owner_id == some u.id
       || r.co_owner_ids.contains u.id
       || r.owner_id == none)
  let has_access :=
    if r.hasAccessible then
      if r.access_level == .privateLevel && r.hasOwnable then
        r.owner_id == some u.id || r.co_owner_ids.contains u.id
      else if r.access_level == .restricted then
        (r.allowed_user_ids.contains u.id
         || r.allowed_group_ids.any (fun g => u.groups_id.contains g)
         || (r.hasOwnable && r.owner_id == some u.id)
         || (r.hasOwnable && r.co_owner_ids.contains u.id))
        || r.custom_access_groups.any (fun g => g.active && g.user_ids.contains u.id)
      else true
    else true
  has_basic_permission
    && (is_assigned || has_ownership || has_access || u.in_group_system)

/-- `_compute_can_delegate` of the responsible mixin: same shape as
`_compute_can_assign` with membership in either responsibility tier standing
in for the current-assignee test. -/
def compute_can_delegate (r : TkRecord) (u : User) : Bool :=
  let has_basic_permission := u.in_group_user || u.in_group_system
  let is_responsible :=
    r.responsible_user_ids.contains u.id
    || r.secondary_responsible_ids.contains u.id
  let has_ownership :=
    r.hasOwnable &&
      (r.owner_id == some u.id
       || r.co_owner_ids.contains u.id
       || r.owner_id == none)
  let has_access :=
    if r.hasAccessible then
      if r.access_level == .privateLevel && r.hasOwnable then
        r.owner_id == some u.id || r.co_owner_ids.contains u.id
      else if r.access_level == .restricted then
        (r.allowed_user_ids.contains u.id
         || r.allowed_group_ids.any (fun g => u.groups_id.contains g)
         || (r.hasOwnable && r.owner_id == some u.id)
         || (r.hasOwnable && r.co_owner_ids.contains u.id))
        || r.custom_access_groups.any (fun g => g.active && g.user_ids.contains u.id)
      else true
    else true
  has_basic_permission
    && (is_responsible || has_ownership || has_access || u.in_group_system)

/-- `_compute_is_manager` of `tk.accessible.group`: admin, creator, or member
of the manager set. -/
def group_is_manager (g : AccessibleGroup) (u : User) : Bool :=
  u.in_group_system || g.created_by == u.id || g.manager_ids.contains u.id

/-! ## Accessible mixin operations -/

/-- The log append performed by `_log_access_change` for a user target. -/
def access_log_entry (r : TkRecord) (action : String) (target : Option Nat)
    (reason : Option String) (extra_info : String) (caller : User) (now : Nat) :
    LogEntry :=
  { model_name := "tk.accessible.mixin", res_id := r.id, action := action,
    old_ref := target, new_ref := none,
    reason := reason.getD "", extra_info := extra_info,
    user_id := caller.id, date := now }

/-- `grant_access_to_user(user_id, start_date, end_date, reason)`: permission
check, existence check, conditional insertion into `allowed_user_ids`,
optional window updates, one log append. -/
def grant_access_to_user (r : TkRecord) (caller : User) (env : Env) (uid : Nat)
    (start_date end_date : Option Nat) (reason : Option String) (now : Nat) :
    Option Err × TkRecord :=
  if !(can_grant_access r caller) then (some .accessError, r)
  else if !(env.users.contains uid) then (some .validationError, r)
  else
    let r1 := if !(r.allowed_user_ids.contains uid) then
                { r with allowed_user_ids := r.allowed_user_ids ++ [uid] }
              else r
    let r2 := match start_date with
              | some d => { r1 with access_start_date := some d }
              | none => r1
    let r3 := match end_date with
              | some d => { r2 with access_end_date := some d }
              | none => r2
    let entry := access_log_entry r3 "grant_user" (some uid) reason "" caller now
    (none, { r3 with access_logs := r3.access_logs ++ [entry] })

/-- `set_access_level(level, reason)`: permission check, then the level write
and one log append.  The selection-membership check of the source cannot fail
here because `level` is already typed. -/
def set_access_level (r : TkRecord) (caller : User) (level : AccessLevel)
    (reason : Option String) (now : Nat) : Option Err × TkRecord :=
  if !(can_grant_access r caller) then (some .accessError, r)
  else
    let r1 := { r with access_level := level }
    let entry := access_log_entry r1 "change_level" none reason "" caller now
    (none, { r1 with access_logs := r1.access_logs ++ [entry] })

/-! ## Ownable mixin operations -/

/-- The log append performed by `_log_ownership_change`. -/
def ownership_log_entry (r : TkRecord) (action : String)
    (old_owner new_owner : Option Nat) (reason : Option String)
    (caller : User) (now : Nat) : LogEntry :=
  { model_name := "tk.ownable.mixin", res_id := r.id, action := action,
    old_ref := old_owner, new_ref := new_owner,
    reason := reason.getD "", extra_info := "",
    user_id := caller.id, date := now }

/-- `_compute_can_transfer`: current owner or admin. -/
def can_transfer (r : TkRecord) (u : User) : Bool :=
  r.owner_id == some u.id || u.in_group_system

/-- `_compute_can_manage_co_owners`: owner, co-owner, or admin. -/
def can_manage_co_owners (r : TkRecord) (u : User) : Bool :=
  r.owner_id == some u.id || r.co_owner_ids.contains u.id || u.in_group_system

/-- `transfer_ownership(new_owner_id, reason)`. -/
def transfer_ownership (r : TkRecord) (caller : User) (env : Env)
    (new_owner_id : Nat) (reason : Option String) (now : Nat) :
    Option Err × TkRecord :=
  if !(can_transfer r caller) then (some .accessError, r)
  else if !(env.users.contains new_owner_id) then (some .validationError, r)
  else
    let old_owner := r.owner_id
    let r1 := { r with previous_owner_id := old_owner,
                       owner_id := some new_owner_id,
                       ownership_date := some now }
    let entry := ownership_log_entry r1 "transfer" old_owner (some new_owner_id)
                   reason caller now
    (none, { r1 with ownership_logs := r1.ownership_logs ++ [entry] })

/-- `claim_ownership(reason)`: the only guard is that `owner_id` is unset; no
permission check is made and `co_owner_ids` is never consulted. -/
def claim_ownership (r : TkRecord) (caller : User) (reason : Option String)
    (now : Nat) : Option Err × TkRecord :=
  if r.owner_id.isSome then (some .validationError, r)
  else
    let r1 := { r with owner_id := some caller.id, ownership_date := some now }
    let entry := ownership_log_entry r1 "claim" none (some caller.id) reason caller now
    (none, { r1 with ownership_logs := r1.ownership_logs ++ [entry] })

/-- `add_co_owner(user_id, reason)`. -/
def add_co_owner (r : TkRecord) (caller : User) (env : Env) (uid : Nat)
    (reason : Option String) (now : Nat) : Option Err × TkRecord :=
  if !(can_manage_co_owners r caller) then (some .accessError, r)
  else if !(env.users.contains uid) then (some .validationError, r)
  else if r.owner_id == some uid then (some .validationError, r)
  else if r.co_owner_ids.contains uid then (some .validationError, r)
  else
    let r1 := { r with co_owner_ids := r.co_owner_ids ++ [uid] }
    let entry := ownership_log_entry r1 "add_co_owner" none (some uid) reason caller now
    (none, { r1 with ownership_logs := r1.ownership_logs ++ [entry] })

/-- `add_multiple_co_owners(user_ids, reason)`: permission, non-empty input,
existence of every user, owner/duplicate checks over the whole input, then a
single multi-element append and one log row. -/
def add_multiple_co_owners (r : TkRecord) (caller : User) (env : Env)
    (uids : List Nat) (reason : Option String) (now : Nat) :
    Option Err × TkRecord :=
  if !(can_manage_co_owners r caller) then (some .accessError, r)
  else if uids.isEmpty then (some .validationError, r)
  else if !(uids.all (fun u => env.users.contains u)) then (some .validationError, r)
  else if uids.any (fun u => r.owner_id == some u) then (some .validationError, r)
  else if uids.any (fun u => r.co_owner_ids.contains u) then (some .validationError, r)
  else
    let r1 := { r with co_owner_ids := r.co_owner_ids ++ uids }
    let entry := ownership_log_entry r1 "add_multiple_co_owners" none none
                   reason caller now
    (none, { r1 with ownership_logs := r1.ownership_logs ++ [entry] })

/-! ## Assignable mixin operations -/

/-- The log append performed by `_log_assignment_change`: the first old and
first new user are stored structurally, the rest only in `extra_info`. -/
def assignment_log_entry (r : TkRecord) (action : String)
    (old_users new_users : List Nat) (reason : Option String)
    (caller : User) (now : Nat) : LogEntry :=
  { model_name := "tk.assignable.mixin", res_id := r.id, action := action,
    old_ref := old_users.head?, new_ref := new_users.head?,
    reason := reason.getD "", extra_info := "",
    user_id := caller.id, date := now }

/-- `assign_to_users(user_ids, deadline, description, priority, reason)`. -/
def assign_to_users (r : TkRecord) (caller : User) (env : Env)
    (uids : List Nat) (deadline : Option Nat) (description : Option String)
    (priority : AssignPriority) (reason : Option String) (now : Nat) :
    Option Err × TkRecord :=
  if !(compute_can_assign r caller) && !caller.in_group_system then
    (some .accessError, r)
  else if uids.isEmpty then (some .validationError, r)
  else if !(uids.all (fun u => env.users.contains u)) then (some .validationError, r)
  else
    let old_assigned := r.assigned_user_ids
    let r1 := { r with assigned_user_ids := uids,
                       assigner_id := some caller.id,
                       assignment_date := some now,
                       assignment_status := .assigned,
                       assignment_priority := priority,
                       assignment_deadline :=
                         match deadline with
                         | some d => some d
                         | none => r.assignment_deadline,
                       assignment_description :=
                         match description with
                         | some d => some d
                         | none => r.assignment_description }
    let entry := assignment_log_entry r1 "assign_multiple" old_assigned uids
                   reason caller now
    (none, { r1 with assignment_logs := r1.assignment_logs ++ [entry] })

/-- `start_assignment(reason)`: guards only on `caller ∈ assigned_user_ids`
or admin; writes `in_progress` whatever the current status is. -/
def start_assignment (r : TkRecord) (caller : User) (reason : Option String)
    (now : Nat) : Option Err × TkRecord :=
  if !(r.assigned_user_ids.contains caller.id) && !caller.in_group_system then
    (some .accessError, r)
  else
    let r1 := { r with assignment_status := .in_progress }
    let entry := assignment_log_entry r1 "start" [] [caller.id] reason caller now
    (none, { r1 with assignment_logs := r1.assignment_logs ++ [entry] })

/-- `complete_assignment(reason)`: same guard as `start_assignment`; writes
only `assignment_status := completed` (plus the log append). -/
def complete_assignment (r : TkRecord) (caller : User) (reason : Option String)
    (now : Nat) : Option Err × TkRecord :=
  if !(r.assigned_user_ids.contains caller.id) && !caller.in_group_system then
    (some .accessError, r)
  else
    let r1 := { r with assignment_status := .completed }
    let entry := assignment_log_entry r1 "complete" [] [caller.id] reason caller now
    (none, { r1 with assignment_logs := r1.assignment_logs ++ [entry] })

/-- `cancel_assignment(reason)`: requires `can_assign`; writes `cancelled`
and clears the assignee set. -/
def cancel_assignment (r : TkRecord) (caller : User) (reason : Option String)
    (now : Nat) : Option Err × TkRecord :=
  if !(compute_can_assign r caller) then (some .accessError, r)
  else
    let old_assigned := r.assigned_user_ids
    let r1 := { r with assignment_status := .cancelled, assigned_user_ids := [] }
    let entry := assignment_log_entry r1 "cancel" old_assigned [] reason caller now
    (none, { r1 with assignment_logs := r1.assignment_logs ++ [entry] })

/-! ## Responsible mixin operations -/

/-- The log append performed by `_log_responsibility_change`. -/
def responsibility_log_entry (r : TkRecord) (action : String)
    (old_users new_users : List Nat) (reason : Option String)
    (caller : User) (now : Nat) : LogEntry :=
  { model_name := "tk.responsible.mixin", res_id := r.id, action := action,
    old_ref := old_users.head?, new_ref := new_users.head?,
    reason := reason.getD "", extra_info := "",
    user_id := caller.id, date := now }

/-- `escalate_responsibility(escalation_user_id, reason)`: permission and
existence checks, then the primary set becomes the single target, the
secondary set is cleared, and the delegation metadata is stamped. -/
def escalate_responsibility (r : TkRecord) (caller : User) (env : Env)
    (uid : Nat) (reason : Option String) (now : Nat) : Option Err × TkRecord :=
  if !(compute_can_delegate r caller) then (some .accessError, r)
  else if !(env.users.contains uid) then (some .validationError, r)
  else
    let old_all := r.responsible_user_ids ++ r.secondary_responsible_ids
    let r1 := { r with responsible_user_ids := [uid],
                       secondary_responsible_ids := [],
                       responsibility_delegated_by := some caller.id,
                       responsibility_start_date := some now }
    let entry := responsibility_log_entry r1 "escalate" old_all [uid] reason caller now
    (none, { r1 with responsibility_logs := r1.responsibility_logs ++ [entry] })

/-! ## Custom access group entity operations -/

/-- `tk.accessible.group.remove_user(user_id, reason)`: manager and existence
checks, then removal when the user is a member.  No check prevents the
removal from emptying an active group. -/
def group_remove_user (g : AccessibleGroup) (caller : User) (env : Env)
    (uid : Nat) : Option Err × AccessibleGroup :=
  if !(group_is_manager g caller) then (some .accessError, g)
  else if !(env.users.contains uid) then (some .validationError, g)
  else if g.user_ids.contains uid then
    (none, { g with user_ids := g.user_ids.erase uid })
  else (none, g)

/-- `tk.accessible.group.remove_all_users(reason)`: manager check, then the
member set is cleared unconditionally. -/
def group_remove_all_users (g : AccessibleGroup) (caller : User) :
    Option Err × AccessibleGroup :=
  if !(group_is_manager g caller) then (some .accessError, g)
  else if !(g.user_ids.isEmpty) then (none, { g with user_ids := [] })
  else (none, g)

/-! ## Group-creation wizard -/

/-- Helper: whether `pat` occurs as a contiguous substring of the character
list, used by the wizard to test whether the literal `Project:` occurs
inside the chosen name. -/
def chars_contain (pat : List Char) : List Char → Bool
  | [] => pat.isPrefixOf []
  | c :: t => pat.isPrefixOf (c :: t) || chars_contain pat t

/-- Substring membership on strings (the Python `in` operator). -/
def str_contains (s pat : String) : Bool :=
  chars_contain pat.toList s.toList

/-- Input state of `tk.accessible.group.wizard`
(accessible_group_wizard.py). -/
structure GroupWizard where
  name : String
  user_ids : List Nat
  manager_ids : List Nat
  group_type : GroupType
  is_temporary : Bool
  expiry_date : Option Nat
  project_name : String
  department_name : String
  auto_add_creator_as_manager : Bool
deriving DecidableEq, Repr

/-- `_validate_wizard_data`: name required and unique, expiry rules for
temporary groups, project/department name rules.  The member list
`user_ids` is never inspected. -/
def validate_wizard_data (w : GroupWizard) (existing_names : List String)
    (now : Nat) : Option Err :=
  if w.name == "" then some .validationError
  else if existing_names.contains w.name then some .validationError
  else if w.is_temporary && w.expiry_date == none then some .validationError
  else if (match w.expiry_date with
           | some d => decide (d ≤ now)
           | none => false) then some .validationError
  else if w.group_type == .project && w.project_name == ""
          && !(str_contains w.name "Project:") then some .validationError
  else if w.group_type == .department && w.department_name == ""
          && !(str_contains w.name "Department:") then some .validationError
  else none

/-- `action_create_group` of the wizard: validate, then create the group
with `active := True` and exactly the member list of the wizard (plus the creator
added to the managers when requested). -/
def action_create_group (w : GroupWizard) (caller : User)
    (existing_names : List String) (now : Nat) (new_id : Nat) :
    Except Err AccessibleGroup :=
  match validate_wizard_data w existing_names now with
  | some e => .error e
  | none =>
    let managers :=
      if w.auto_add_creator_as_manager && !(w.manager_ids.contains caller.id)
      then w.manager_ids ++ [caller.id]
      else w.manager_ids
    .ok { id := new_id, name := w.name, active := true,
          user_ids := w.user_ids, manager_ids := managers,
          created_by := caller.id }

/-! ## Audit-log model (`tk.access.log`, `tk.ownership.log`, ...) -/

/-- The names bound at module level by `access_log.py`, whose only import
line is `from odoo import models, fields, api, _`. -/
def access_log_imports : List String := ["models", "fields", "api", "_"]

/-- Whether `timedelta` is a bound name inside `access_log.py`. -/
def timedelta_imported : Bool := access_log_imports.contains "timedelta"

/-- Whether `ValidationError` is a bound name inside `access_log.py`. -/
def validation_error_imported : Bool :=
  access_log_imports.contains "ValidationError"

/-- `tk.access.log.cleanup_old_logs(days)`: computes a cutoff with
`timedelta`, deletes older entries and returns the count.  Because
`timedelta` is never imported by the module, evaluating it raises
`NameError` before anything is searched or deleted. -/
def cleanup_old_logs (logs : List LogEntry) (now : Nat) (days : Nat) :
    Except Err (Nat × List LogEntry) :=
  if !timedelta_imported then .error .nameError
  else
    let cutoff := now - days * 86400
    let old := logs.filter (fun l => decide (l.date < cutoff))
    .ok (old.length, logs.filter (fun l => !(decide (l.date < cutoff))))

/-- Possible outcomes of an `open_record()` call: the `ir.actions.act_window`
navigation descriptor, the `False` sentinel, or a raised exception. -/
inductive OpenResult where
  | act_window (model : String) (rid : Nat)
  | returnedFalse
  | raised (e : Err)
deriving DecidableEq, Repr

/-- `tk.access.log.open_record()`: `False` when `model_name`/`res_id` are
falsy; the navigation descriptor when the target exists; otherwise the code
raises — intending `ValidationError`, but as that name is unimported in
`access_log.py` the evaluation raises `NameError` instead. -/
def access_log_open_record (l : LogEntry) (target_exists : Bool) : OpenResult :=
  if l.model_name == "" || l.res_id == 0 then .returnedFalse
  else if target_exists then .act_window l.model_name l.res_id
  else if validation_error_imported then .raised .validationError
  else .raised .nameError

/-- `tk.ownership.log.open_record()` (identical in the assignment and
responsibility logs): `False` when `model_name`/`res_id` are falsy, otherwise
the navigation descriptor is returned without ever checking that the target
still exists. -/
def ownership_log_open_record (l : LogEntry) (_target_exists : Bool) :
    OpenResult :=
  if l.model_name == "" || l.res_id == 0 then .returnedFalse
  else .act_window l.model_name l.res_id

/-! ## Spec-side predicate and decomposition helpers -/

/-- The `can_assign` predicate as the specification words it (section 4.3):
base platform-user capability AND (currently an assignee OR owns/co-owns OR
the record is unowned OR `has_access` of section 4.1 holds OR admin).  This
definition follows the words of the spec and is compared against the source
translation `compute_can_assign`. -/
def can_assign_spec (r : TkRecord) (u : User) (now : Nat) : Bool :=
  u.in_group_user &&
    (r.assigned_user_ids.contains u.id
     || r.owner_id == some u.id
     || r.co_owner_ids.contains u.id
     || !(is_owned r)
     || check_user_access r u now
     || u.in_group_system)

/-- The basic-permission clause of `_compute_can_assign`. -/
def assign_basic_permission (u : User) : Bool :=
  u.in_group_user || u.in_group_system

/-- The ownership clause of `_compute_can_assign`: when the record carries
ownership state, the caller owns it, co-owns it, or the owner is unset. -/
def assign_ownership_check (r : TkRecord) (u : User) : Bool :=
  r.hasOwnable &&
    (r.owner_id == some u.id
     || r.co_owner_ids.contains u.id
     || r.owner_id == none)

/-- The assignment-local access clause of `_compute_can_assign`.  Unlike
`check_user_access` it never looks at the access window or at the admin
capability, for `privateLevel` it accepts only owners and co-owners, for
`restricted` it checks direct users, system groups, ownership and active
custom groups, and for every other configuration it is true. -/
def assign_access_check (r : TkRecord) (u : User) : Bool :=
  if r.hasAccessible then
    if r.access_level == .privateLevel && r.hasOwnable then
      r.owner_id == some u.id || r.co_owner_ids.contains u.id
    else if r.access_level == .restricted then
      (r.allowed_user_ids.contains u.id
       || r.allowed_group_ids.any (fun g => u.groups_id.contains g)
       || (r.hasOwnable && r.owner_id == some u.id)
       || (r.hasOwnable && r.co_owner_ids.contains u.id))
      || r.custom_access_groups.any (fun g => g.active && g.user_ids.contains u.id)
    else true
  else true

/-! ## Sample values used by the concrete evaluations -/

/-- A host record with every capability state at its default. -/
def baseRecord : TkRecord :=
  { id := 1, hasOwnable := false, owner_id := none, co_owner_ids := [],
    previous_owner_id := none, ownership_date := none,
    hasAccessible := true, access_level := .internal, allowed_user_ids := [],
    allowed_group_ids := [], custom_access_groups := [],
    access_start_date := none, access_end_date := none,
    assigned_user_ids := [], assigner_id := none, assignment_date := none,
    assignment_deadline := none, assignment_status := .unassigned,
    assignment_priority := .normal, assignment_description := none,
    responsible_user_ids := [], secondary_responsible_ids := [],
    responsibility_delegated_by := none, responsibility_start_date := none,
    responsibility_end_date := none, responsibility_description := none,
    access_logs := [], ownership_logs := [], assignment_logs := [],
    responsibility_logs := [] }

/-- An ordinary recognized platform user (id 7), not an admin. -/
def plainUser : User :=
  { id := 7, groups_id := [], in_group_user := true, in_group_system := false }

/-- A user directory containing ids 5 and 7. -/
def sampleEnv : Env := { users := [5, 7] }

/-- An audit-log row whose weak target reference is set. -/
def sampleLog : LogEntry :=
  { model_name := "project.task", res_id := 1, action := "transfer",
    old_ref := none, new_ref := none, reason := "", extra_info := "",
    user_id := 1, date := 0 }

/-- A wizard input asking for an active group with an empty member list. -/
def emptyMembersWizard : GroupWizard :=
  { name := "Team A", user_ids := [], manager_ids := [],
    group_type := .general, is_temporary := false, expiry_date := none,
    project_name := "", department_name := "",
    auto_add_creator_as_manager := true }

/-- An active custom group whose only member is user 5, managed by user 7. -/
def singleMemberGroup : AccessibleGroup :=
  { id := 1, name := "G", active := true, user_ids := [5],
    manager_ids := [7], created_by := 7 }

/-! ## Claim C1 -/

/-- C1 counterexample: a record whose `access_level` is public but whose
access window has already ended denies access to an ordinary user, so public
does not grant access regardless of the window state. -/
theorem C1_public_window_counterexample :
    check_user_access
      { baseRecord with access_level := .publicLevel, access_end_date := some 5 }
      plainUser 10 = false := by
  decide

/-- C1 amended: for every record and actor, if the access window does not
deny (the end date is unset or not past, the start date is unset or not
future) and the access level is public, then `_check_user_access` is true
regardless of ownership, grants and group state. -/
theorem C1_public_access (r : TkRecord) (u : User) (now : Nat)
    (h1 : is_access_expired r now = false)
    (h2 : access_start_future r now = false)
    (h3 : r.access_level = .publicLevel) :
    check_user_access r u now = true := by
  unfold check_user_access
  rw [h1, h2]
  simp [h3]

/-- C1 witness: the amended theorem applied to a concrete public record with
no access window. -/
theorem C1_public_access_witness :
    is_access_expired { baseRecord with access_level := .publicLevel } 3 = false
    ∧ access_start_future { baseRecord with access_level := .publicLevel } 3 = false
    ∧ check_user_access { baseRecord with access_level := .publicLevel } plainUser 3 = true :=
  ⟨by decide, by decide,
   C1_public_access { baseRecord with access_level := .publicLevel } plainUser 3
     (by decide) (by decide) (by decide)⟩

/-! ## Claim C2 -/

/-- C2 counterexample: a private record owned by user 1 with an explicit
grant to user 7.  `_check_user_access` (section 4.1) accepts user 7, and the
claimed formula therefore says `can_assign` should hold, yet
`_compute_can_assign` rejects user 7 because its inline private-level check
consults only ownership. -/
theorem C2_can_assign_counterexample :
    compute_can_assign
      { baseRecord with hasOwnable := true, owner_id := some 1,
                        access_level := .privateLevel, allowed_user_ids := [7] }
      plainUser = false
    ∧ can_assign_spec
      { baseRecord with hasOwnable := true, owner_id := some 1,
                        access_level := .privateLevel, allowed_user_ids := [7] }
      plainUser 0 = true := by
  constructor
  · decide
  · decide

/-- C2 amended: `can_assign` is the conjunction of the basic platform
capability with the disjunction of: current assignee, the ownership clause,
the assignment-local access clause, admin — where the assignment-local
access clause is not `has_access` of section 4.1: it ignores the access
window entirely (third conjunct shows window independence) and the admin
capability, and for private records it accepts only owners and co-owners. -/
theorem C2_can_assign_shape (r : TkRecord) (u : User)
    (s e : Option Nat) :
    compute_can_assign r u
      = (assign_basic_permission u
         && (r.assigned_user_ids.contains u.id
             || assign_ownership_check r u
             || assign_access_check r u
             || u.in_group_system))
    ∧ compute_can_assign
        { r with access_start_date := s, access_end_date := e } u
      = compute_can_assign r u := by
  constructor
  · rfl
  · rfl

/-! ## Claim C3 -/

/-- C3 counterexample: a record with `assignment_status = completed` whose
assignee set still contains user 7; user 7 calls `start_assignment` and the
record leaves the completed state for `in_progress`, so completed is not
terminal without a fresh assign. -/
theorem C3_completed_not_terminal :
    (start_assignment
       { baseRecord with assignment_status := .completed,
                         assigned_user_ids := [7] }
       plainUser none 0).1 = none
    ∧ (start_assignment
         { baseRecord with assignment_status := .completed,
                           assigned_user_ids := [7] }
         plainUser none 0).2.assignment_status = .in_progress := by
  constructor
  · decide
  · decide

/-- C3 amended: `start_assignment` and `complete_assignment` never consult
the current status: whenever the caller is a current assignee or an admin
they succeed from any status — including completed and cancelled — and set
the status to `in_progress` (resp. `completed`). -/
theorem C3_status_unguarded (r : TkRecord) (caller : User)
    (reason : Option String) (now : Nat)
    (h : r.assigned_user_ids.contains caller.id || caller.in_group_system = true) :
    (start_assignment r caller reason now).1 = none
    ∧ (start_assignment r caller reason now).2.assignment_status = .in_progress
    ∧ (complete_assignment r caller reason now).1 = none
    ∧ (complete_assignment r caller reason now).2.assignment_status = .completed := by
  cases ha : r.assigned_user_ids.contains caller.id <;>
    cases hb : caller.in_group_system <;>
      simp_all [start_assignment, complete_assignment]

/-- C3 witness: the amended theorem applied to a concrete cancelled record
with user 7 still assigned. -/
theorem C3_status_unguarded_witness :
    ({ baseRecord with assignment_status := .cancelled,
                       assigned_user_ids := [7] } :
        TkRecord).assigned_user_ids.contains plainUser.id = true
    ∧ (complete_assignment
         { baseRecord with assignment_status := .cancelled,
                           assigned_user_ids := [7] }
         plainUser none 0).2.assignment_status = .completed :=
  ⟨by decide,
   (C3_status_unguarded
      { baseRecord with assignment_status := .cancelled,
                        assigned_user_ids := [7] }
      plainUser none 0 (by decide)).2.2.2⟩

/-! ## Claim C4 -/

/-- C4 counterexample: the wizard creates an active group with an empty
member list (its validation never looks at the member list), and a manager
removing the last member of an active group succeeds, leaving the group
active and empty. -/
theorem C4_empty_active_group_counterexample :
    action_create_group emptyMembersWizard plainUser [] 0 42
      = .ok { id := 42, name := "Team A", active := true, user_ids := [],
              manager_ids := [7], created_by := 7 }
    ∧ group_remove_user singleMemberGroup plainUser sampleEnv 5
      = (none, { singleMemberGroup with user_ids := [] }) := by
  constructor
  · rfl
  · rfl

/-- C4 amended: no zero-member constraint exists for active groups.  The
wizard validation is independent of the member list, `remove_user` succeeds
even when it empties an active group, and `remove_all_users` always empties
the member set for a manager. -/
theorem C4_no_empty_member_constraint :
    (∀ (w : GroupWizard) (l : List Nat) (names : List String) (now : Nat),
       validate_wizard_data { w with user_ids := l } names now
         = validate_wizard_data w names now)
    ∧ (∀ (g : AccessibleGroup) (caller : User) (env : Env) (uid : Nat),
        group_is_manager g caller = true →
        env.users.contains uid = true →
        g.user_ids = [uid] →
        group_remove_user g caller env uid = (none, { g with user_ids := [] }))
    ∧ (∀ (g : AccessibleGroup) (caller : User),
        group_is_manager g caller = true →
        (group_remove_all_users g caller).1 = none
        ∧ (group_remove_all_users g caller).2.user_ids = []) := by
  refine ⟨fun w l names now => rfl, fun g caller env uid h1 h2 h3 => ?_,
          fun g caller h1 => ?_⟩
  · have h2m : uid ∈ env.users := by simpa using h2
    simp [group_remove_user, h1, h2, h2m, h3]
  · cases hgu : g.user_ids <;> simp [group_remove_all_users, h1, hgu]

/-- C4 witness: the amended theorem applied to the concrete single-member
active group. -/
theorem C4_no_empty_member_constraint_witness :
    group_is_manager singleMemberGroup plainUser = true
    ∧ (group_remove_all_users singleMemberGroup plainUser).2.user_ids = [] :=
  ⟨by decide,
   (C4_no_empty_member_constraint.2.2 singleMemberGroup plainUser (by decide)).2⟩

/-! ## Claim C5 -/

/-- C5: every embedded single-record mutating operation of the four mixins
validates before mutating: whenever it raises, the returned state — record
fields and all four audit logs — is exactly the input state. -/
theorem C5_validation_precedes_mutation :
    (∀ r caller env uid sd ed rs now,
       (grant_access_to_user r caller env uid sd ed rs now).1.isSome = true →
       (grant_access_to_user r caller env uid sd ed rs now).2 = r)
    ∧ (∀ r caller lvl rs now,
        (set_access_level r caller lvl rs now).1.isSome = true →
        (set_access_level r caller lvl rs now).2 = r)
    ∧ (∀ r caller env uid rs now,
        (transfer_ownership r caller env uid rs now).1.isSome = true →
        (transfer_ownership r caller env uid rs now).2 = r)
    ∧ (∀ r caller rs now,
        (claim_ownership r caller rs now).1.isSome = true →
        (claim_ownership r caller rs now).2 = r)
    ∧ (∀ r caller env uid rs now,
        (add_co_owner r caller env uid rs now).1.isSome = true →
        (add_co_owner r caller env uid rs now).2 = r)
    ∧ (∀ r caller env uids rs now,
        (add_multiple_co_owners r caller env uids rs now).1.isSome = true →
        (add_multiple_co_owners r caller env uids rs now).2 = r)
    ∧ (∀ r caller env uids dl ds pr rs now,
        (assign_to_users r caller env uids dl ds pr rs now).1.isSome = true →
        (assign_to_users r caller env uids dl ds pr rs now).2 = r)
    ∧ (∀ r caller rs now,
        (start_assignment r caller rs now).1.isSome = true →
        (start_assignment r caller rs now).2 = r)
    ∧ (∀ r caller rs now,
        (complete_assignment r caller rs now).1.isSome = true →
        (complete_assignment r caller rs now).2 = r)
    ∧ (∀ r caller rs now,
        (cancel_assignment r caller rs now).1.isSome = true →
        (cancel_assignment r caller rs now).2 = r)
    ∧ (∀ r caller env uid rs now,
        (escalate_responsibility r caller env uid rs now).1.isSome = true →
        (escalate_responsibility r caller env uid rs now).2 = r) := by
  refine ⟨?_, ?_, ?_, ?_, ?_, ?_, ?_, ?_, ?_, ?_, ?_⟩ <;>
    intro r caller <;>
    first
    | (intro env uid sd ed rs now
       unfold grant_access_to_user
       split_ifs <;> simp_all)
    | (intro lvl rs now
       unfold set_access_level
       split_ifs <;> simp_all)
    | (intro env uid rs now
       first
       | (unfold transfer_ownership) | (unfold add_co_owner)
       | (unfold escalate_responsibility)
       split_ifs <;> simp_all)
    | (intro rs now
       first
       | (unfold claim_ownership) | (unfold start_assignment)
       | (unfold complete_assignment) | (unfold cancel_assignment)
       split_ifs <;> simp_all)
    | (intro env uids rs now
       unfold add_multiple_co_owners
       split_ifs <;> simp_all)
    | (intro env uids dl ds pr rs now
       unfold assign_to_users
       split_ifs <;> simp_all)

/-- C5 witness: a grant by a caller without the grant permission raises and
leaves the record untouched. -/
theorem C5_validation_precedes_mutation_witness :
    (grant_access_to_user baseRecord plainUser sampleEnv 5 none none none 0).1.isSome = true
    ∧ (grant_access_to_user baseRecord plainUser sampleEnv 5 none none none 0).2 = baseRecord :=
  ⟨by decide,
   C5_validation_precedes_mutation.1 baseRecord plainUser sampleEnv 5 none none none 0
     (by decide)⟩

/-! ## Claim C6 -/

/-- C6: the only retention-purge operation in the module,
`tk.access.log.cleanup_old_logs`, raises `NameError` on every call because
`timedelta` is not among the names imported by `access_log.py`; no entry is
ever deleted and no count is ever returned. -/
theorem C6_cleanup_always_raises :
    timedelta_imported = false
    ∧ ∀ (logs : List LogEntry) (now days : Nat),
        cleanup_old_logs logs now days = .error .nameError :=
  ⟨rfl, fun _ _ _ => rfl⟩

/-! ## Claim C7 -/

/-- C7 counterexample: for a log entry whose target has been deleted,
`tk.ownership.log.open_record` still returns the navigation descriptor and
`tk.access.log.open_record` raises, so neither fails gracefully with the
`False` sentinel. -/
theorem C7_open_record_counterexample :
    ownership_log_open_record sampleLog false = .act_window "project.task" 1
    ∧ access_log_open_record sampleLog false = .raised .nameError
    ∧ ownership_log_open_record sampleLog false ≠ .returnedFalse
    ∧ access_log_open_record sampleLog false ≠ .returnedFalse := by
  refine ⟨rfl, rfl, ?_, ?_⟩ <;> decide

/-- C7 amended: when the weak reference is set, the ownership-log (and the
identical assignment/responsibility-log) `open_record` returns the
navigation descriptor without checking that the target exists, while the
access-log `open_record` returns the descriptor for a live target and
raises (`NameError`, since `ValidationError` is unimported) for a deleted
one; the `False` sentinel is only used when `model_name` or `res_id` is
unset. -/
theorem C7_open_record_behavior (l : LogEntry) (e : Bool)
    (hm : l.model_name ≠ "") (hr : l.res_id ≠ 0) :
    ownership_log_open_record l e = .act_window l.model_name l.res_id
    ∧ (e = true → access_log_open_record l e = .act_window l.model_name l.res_id)
    ∧ (e = false → access_log_open_record l e = .raised .nameError) := by
  have hm1 : (l.model_name == "") = false := by simpa using hm
  have hr1 : (l.res_id == 0) = false := by simpa using hr
  have hv : validation_error_imported = false := by decide
  refine ⟨?_, ?_, ?_⟩
  · simp [ownership_log_open_record, hm1, hr1]
  · intro he
    simp [access_log_open_record, hm1, hr1, he]
  · intro he
    simp [access_log_open_record, hm1, hr1, he, hv]

/-- C7 witness: the amended theorem applied to the concrete log entry with a
deleted target. -/
theorem C7_open_record_behavior_witness :
    sampleLog.model_name ≠ "" ∧ sampleLog.res_id ≠ 0
    ∧ ownership_log_open_record sampleLog false
        = .act_window sampleLog.model_name sampleLog.res_id :=
  ⟨by decide, by decide,
   (C7_open_record_behavior sampleLog false (by decide) (by decide)).1⟩

/-! ## Claim C8 -/

/-- Helper for the grant idempotence claim: a permitted grant to an existing
user succeeds. -/
theorem grant_ok_fst (r : TkRecord) (caller : User) (env : Env) (uid : Nat)
    (rs : Option String) (now : Nat)
    (h1 : can_grant_access r caller = true)
    (h2 : env.users.contains uid = true) :
    (grant_access_to_user r caller env uid none none rs now).1 = none := by
  have h2m : uid ∈ env.users := by simpa using h2
  simp [grant_access_to_user, h1, h2m]

/-- Helper: the allowed-user set after a permitted grant. -/
theorem grant_ok_allowed (r : TkRecord) (caller : User) (env : Env) (uid : Nat)
    (rs : Option String) (now : Nat)
    (h1 : can_grant_access r caller = true)
    (h2 : env.users.contains uid = true) :
    (grant_access_to_user r caller env uid none none rs now).2.allowed_user_ids
      = (if uid ∈ r.allowed_user_ids then r.allowed_user_ids
         else r.allowed_user_ids ++ [uid]) := by
  have h2m : uid ∈ env.users := by simpa using h2
  by_cases hmem : uid ∈ r.allowed_user_ids <;>
    simp [grant_access_to_user, h1, h2m, hmem]

/-- Helper: a permitted grant appends exactly one access-log entry. -/
theorem grant_ok_logs (r : TkRecord) (caller : User) (env : Env) (uid : Nat)
    (rs : Option String) (now : Nat)
    (h1 : can_grant_access r caller = true)
    (h2 : env.users.contains uid = true) :
    (grant_access_to_user r caller env uid none none rs now).2.access_logs.length
      = r.access_logs.length + 1 := by
  have h2m : uid ∈ env.users := by simpa using h2
  by_cases hmem : uid ∈ r.allowed_user_ids <;>
    simp [grant_access_to_user, h1, h2m, hmem]

/-- Helper: a permitted grant does not change the ownership fields consulted
by the grant permission. -/
theorem grant_ok_owner_fields (r : TkRecord) (caller : User) (env : Env)
    (uid : Nat) (rs : Option String) (now : Nat)
    (h1 : can_grant_access r caller = true)
    (h2 : env.users.contains uid = true) :
    (grant_access_to_user r caller env uid none none rs now).2.hasOwnable
      = r.hasOwnable
    ∧ (grant_access_to_user r caller env uid none none rs now).2.owner_id
      = r.owner_id := by
  have h2m : uid ∈ env.users := by simpa using h2
  by_cases hmem : uid ∈ r.allowed_user_ids <;>
    simp [grant_access_to_user, h1, h2m, hmem]

/-- Helper: a permitted grant leaves the caller permitted. -/
theorem grant_ok_can_grant (r : TkRecord) (caller : User) (env : Env) (uid : Nat)
    (rs : Option String) (now : Nat)
    (h1 : can_grant_access r caller = true)
    (h2 : env.users.contains uid = true) :
    can_grant_access (grant_access_to_user r caller env uid none none rs now).2 caller
      = true := by
  have hfields := grant_ok_owner_fields r caller env uid rs now h1 h2
  have hall := grant_ok_allowed r caller env uid rs now h1 h2
  unfold can_grant_access at h1 ⊢
  rw [hfields.1, hfields.2, hall]
  simp only [Bool.or_eq_true] at h1 ⊢
  rcases h1 with (h | h) | h
  · exact Or.inl (Or.inl h)
  · exact Or.inl (Or.inr h)
  · right
    have hx : caller.id ∈ r.allowed_user_ids := by simpa using h
    by_cases hmem : uid ∈ r.allowed_user_ids
    · simpa [hmem] using h
    · rw [if_neg hmem]
      simp [List.mem_append]
      exact Or.inl hx

/-- C8: a caller permitted to grant who grants the same existing user twice
succeeds both times, the allowed-user set ends containing that user exactly
once (given the set invariant that it held at most one copy initially), and
each call appends one audit entry, two in total. -/
theorem C8_grant_twice_idempotent (r : TkRecord) (caller : User) (env : Env)
    (uid : Nat) (rs1 rs2 : Option String) (now1 now2 : Nat)
    (h1 : can_grant_access r caller = true)
    (h2 : env.users.contains uid = true)
    (h3 : r.allowed_user_ids.count uid ≤ 1) :
    (grant_access_to_user r caller env uid none none rs1 now1).1 = none
    ∧ (grant_access_to_user
         (grant_access_to_user r caller env uid none none rs1 now1).2
         caller env uid none none rs2 now2).1 = none
    ∧ (grant_access_to_user
         (grant_access_to_user r caller env uid none none rs1 now1).2
         caller env uid none none rs2 now2).2.allowed_user_ids.count uid = 1
    ∧ (grant_access_to_user
         (grant_access_to_user r caller env uid none none rs1 now1).2
         caller env uid none none rs2 now2).2.access_logs.length
      = r.access_logs.length + 2 := by
  have h1b := grant_ok_can_grant r caller env uid rs1 now1 h1 h2
  refine ⟨grant_ok_fst r caller env uid rs1 now1 h1 h2,
          grant_ok_fst _ caller env uid rs2 now2 h1b h2, ?_, ?_⟩
  · rw [grant_ok_allowed _ caller env uid rs2 now2 h1b h2,
        grant_ok_allowed r caller env uid rs1 now1 h1 h2]
    by_cases hmem : uid ∈ r.allowed_user_ids
    · have hpos : r.allowed_user_ids.count uid ≠ 0 := by
        simpa [List.count_eq_zero] using hmem
      simp only [if_pos hmem]
      omega
    · have hzero : r.allowed_user_ids.count uid = 0 :=
        List.count_eq_zero.mpr hmem
      have hmem2 : uid ∈ r.allowed_user_ids ++ [uid] := by simp
      simp only [if_neg hmem, if_pos hmem2]
      simp [List.count_append, hzero]
  · rw [grant_ok_logs _ caller env uid rs2 now2 h1b h2,
        grant_ok_logs r caller env uid rs1 now1 h1 h2]

/-- C8 witness: the double grant evaluated on a concrete record whose owner
(user 7) grants access to user 5. -/
theorem C8_grant_twice_idempotent_witness :
    can_grant_access { baseRecord with hasOwnable := true, owner_id := some 7 }
      plainUser = true
    ∧ (grant_access_to_user
         (grant_access_to_user
            { baseRecord with hasOwnable := true, owner_id := some 7 }
            plainUser sampleEnv 5 none none none 0).2
         plainUser sampleEnv 5 none none none 1).2.allowed_user_ids.count 5 = 1 :=
  ⟨by decide,
   (C8_grant_twice_idempotent
      { baseRecord with hasOwnable := true, owner_id := some 7 }
      plainUser sampleEnv 5 none none 0 1
      (by decide) (by decide) (by decide)).2.2.1⟩

/-! ## Claim C9 -/

/-- C9: a successful `complete_assignment` changes only the status (to
completed) among the assignment fields — assignees, assigner, assignment
date, deadline, priority and description are untouched — while a successful
`cancel_assignment` clears the assignee set and sets the status to
cancelled. -/
theorem C9_complete_frame (r : TkRecord) (caller : User)
    (rs : Option String) (now : Nat)
    (h : (complete_assignment r caller rs now).1 = none) :
    (complete_assignment r caller rs now).2.assignment_status = .completed
    ∧ (complete_assignment r caller rs now).2.assigned_user_ids
        = r.assigned_user_ids
    ∧ (complete_assignment r caller rs now).2.assigner_id = r.assigner_id
    ∧ (complete_assignment r caller rs now).2.assignment_date
        = r.assignment_date
    ∧ (complete_assignment r caller rs now).2.assignment_deadline
        = r.assignment_deadline
    ∧ (complete_assignment r caller rs now).2.assignment_priority
        = r.assignment_priority
    ∧ (complete_assignment r caller rs now).2.assignment_description
        = r.assignment_description
    ∧ ((cancel_assignment r caller rs now).1 = none →
        (cancel_assignment r caller rs now).2.assigned_user_ids = []
        ∧ (cancel_assignment r caller rs now).2.assignment_status = .cancelled) := by
  unfold complete_assignment at h ⊢
  unfold cancel_assignment
  split_ifs at h ⊢ <;> simp_all

/-- C9 witness: completing a concrete in-progress record assigned to user 7
keeps the assignee set. -/
theorem C9_complete_frame_witness :
    (complete_assignment
       { baseRecord with assigned_user_ids := [7],
                         assignment_status := .in_progress }
       plainUser none 0).1 = none
    ∧ (complete_assignment
         { baseRecord with assigned_user_ids := [7],
                           assignment_status := .in_progress }
         plainUser none 0).2.assigned_user_ids = [7] :=
  ⟨by decide,
   (C9_complete_frame
      { baseRecord with assigned_user_ids := [7],
                        assignment_status := .in_progress }
      plainUser none 0 (by decide)).2.1⟩

/-! ## Claim C10 -/

/-- C10: `claim_ownership` raises exactly when `owner_id` is set; it makes
no permission check and ignores co-owners, so on any record with `owner_id`
unset any caller succeeds and becomes the owner, even when the non-empty
co-owner set makes `is_owned` true; on failure the record is unchanged. -/
theorem C10_claim_ownership_guard (r : TkRecord) (caller : User)
    (rs : Option String) (now : Nat) :
    ((claim_ownership r caller rs now).1.isSome ↔ r.owner_id ≠ none)
    ∧ (r.owner_id = none →
        (claim_ownership r caller rs now).1 = none
        ∧ (claim_ownership r caller rs now).2.owner_id = some caller.id
        ∧ (claim_ownership r caller rs now).2.co_owner_ids = r.co_owner_ids)
    ∧ ((claim_ownership r caller rs now).1.isSome →
        (claim_ownership r caller rs now).2 = r)
    ∧ (r.owner_id = none → r.co_owner_ids ≠ [] → is_owned r = true) := by
  cases ho : r.owner_id
  · refine ⟨by simp [claim_ownership, ho], ?_, ?_, ?_⟩
    · intro _
      simp [claim_ownership, ho]
    · intro hs
      simp [claim_ownership, ho] at hs
    · intro _ hc
      cases hco : r.co_owner_ids
      · exact absurd hco hc
      · simp [is_owned, hco]
  · refine ⟨by simp [claim_ownership, ho], ?_, ?_, ?_⟩
    · intro hn
      simp [ho] at hn
    · intro _
      simp [claim_ownership, ho]
    · intro hn
      simp [ho] at hn

/-- C10 witness: a record without an owner but with co-owner 5 is claimed by
user 7, who becomes the owner although `is_owned` was already true. -/
theorem C10_claim_ownership_guard_witness :
    ({ baseRecord with co_owner_ids := [5] } : TkRecord).owner_id = none
    ∧ (claim_ownership { baseRecord with co_owner_ids := [5] }
         plainUser none 0).2.owner_id = some 7
    ∧ is_owned { baseRecord with co_owner_ids := [5] } = true :=
  ⟨by decide,
   ((C10_claim_ownership_guard { baseRecord with co_owner_ids := [5] }
       plainUser none 0).2.1 (by decide)).2.1,
   (C10_claim_ownership_guard { baseRecord with co_owner_ids := [5] }
       plainUser none 0).2.2.2 (by decide) (by decide)⟩
